import Mathlib

/-!
Verification development for the document-converter repository.

The repository contains two implementations of the conversion core:
an MCP stdio server (class `DocumentConverterStdioServer`, file
`stdio-server.ts`) and an HTTP server (class `DocumentConverterServer`,
file `document-converter.js`).  Both are embedded below, in namespaces
`Stdio` and `DCS` respectively.  Optional external libraries (marked,
turndown, puppeteer, officegen, mammoth, pdf-parse) are modelled by an
environment `Env` carrying one availability flag per library, probed
once at startup in the source, plus an oracle function for each
library's behaviour when it is present.  JavaScript exceptions are
modelled by `Except String`; an exception's `message` is the carried
string.  JavaScript strings are modelled by `String` (the test inputs
used are ASCII, where JS UTF-16 semantics and Lean codepoint semantics
agree).
-/

/-- Word character of the JS regex class `\w`, i.e. `[A-Za-z0-9_]`. -/
def isWordChar (c : Char) : Bool :=
  ('a' ≤ c && c ≤ 'z') || ('A' ≤ c && c ≤ 'Z') || ('0' ≤ c && c ≤ '9') || c == '_'

/-- Whitespace of the JS regex class `\s` (restricted to the characters
relevant here: ASCII whitespace and NBSP). -/
def isJsSpace (c : Char) : Bool :=
  c == ' ' || c == '\t' || c == '\n' || c == '\r' ||
  c == '\x0b' || c == '\x0c' || c == ' '

/-- JS `String.prototype.trim` (strips `\s` from both ends). -/
def jsTrim (s : String) : String :=
  String.mk ((((s.data.dropWhile isJsSpace).reverse.dropWhile isJsSpace).reverse))

/-- JS `String.prototype.toLowerCase` (ASCII range). -/
def jsToLower (s : String) : String := String.mk (s.data.map Char.toLower)

/-- JS `String.prototype.toUpperCase` (ASCII range). -/
def jsToUpper (s : String) : String := String.mk (s.data.map Char.toUpper)

/-- JS `c.repeat n` building a string of `n` copies of one character. -/
def repeatChar (c : Char) (n : Nat) : String := String.mk (List.replicate n c)

/-- JS `a || b` for a possibly-undefined string: `none` (undefined) and
the empty string are both falsy and select the default. -/
def jsOr (o : Option String) (d : String) : String :=
  match o with
  | none => d
  | some s => if s = "" then d else s

/-- JS `s.endsWith c` for a single character. -/
def endsWithChar (c : Char) (s : String) : Bool := s.data.getLast? == some c

/-- JS `s.slice 0 (-1)`: drop the last character. -/
def strDropLast (s : String) : String := String.mk s.data.dropLast

/-- JS `s.substring 0 n`: the first `n` characters. -/
def strTake (n : Nat) (s : String) : String := String.mk (s.data.take n)

/-- Drop the first `n` characters of a string. -/
def strDrop (n : Nat) (s : String) : String := String.mk (s.data.drop n)

/-- Index of the first occurrence of a character, if any. -/
def findCharIdx (t : Char) : List Char → Option Nat
  | [] => none
  | c :: rest => if c == t then some 0 else (findCharIdx t rest).map (· + 1)

/-- Index of the first position where `pat` occurs as a contiguous
subsequence, if any. -/
def findSeqIdx (pat : List Char) : List Char → Option Nat
  | [] => if pat.isPrefixOf ([] : List Char) then some 0 else none
  | cs@(_ :: rest) =>
    if pat.isPrefixOf cs then some 0 else (findSeqIdx pat rest).map (· + 1)

/-- Case-insensitive prefix test (for JS regex flag `i`). -/
def ciIsPrefix : List Char → List Char → Bool
  | [], _ => true
  | _ :: _, [] => false
  | p :: ps, c :: cs => (p.toLower == c.toLower) && ciIsPrefix ps cs

/-- Case-insensitive version of `findSeqIdx`. -/
def findCISeqIdx (pat : List Char) : List Char → Option Nat
  | [] => if ciIsPrefix pat [] then some 0 else none
  | cs@(_ :: rest) =>
    if ciIsPrefix pat cs then some 0 else (findCISeqIdx pat rest).map (· + 1)

/-- Core of JS `s.split sep` for a non-empty literal separator:
left-to-right, non-overlapping.  `fuel` bounds the recursion and is
always instantiated to more than the input length. -/
def splitSeqCore (pat : List Char) : Nat → List Char → List (List Char)
  | 0, cs => [cs]
  | fuel + 1, cs =>
    match findSeqIdx pat cs with
    | none => [cs]
    | some i => cs.take i :: splitSeqCore pat fuel (cs.drop (i + pat.length))

/-- JS `s.split sep` for a literal separator string. -/
def jsSplit (sep : String) (s : String) : List String :=
  (splitSeqCore sep.data (s.data.length + 1) s.data).map String.mk

/-- Core of JS `s.replace re rep` for a global literal pattern:
left-to-right, non-overlapping, the replacement is not rescanned. -/
def replaceSeqCore (pat rep : List Char) : Nat → List Char → List Char
  | 0, cs => cs
  | fuel + 1, cs =>
    if pat.isPrefixOf cs then rep ++ replaceSeqCore pat rep fuel (cs.drop pat.length)
    else
      match cs with
      | [] => []
      | c :: rest => c :: replaceSeqCore pat rep fuel rest

/-- JS global replace of a literal pattern by a literal replacement. -/
def replaceSeq (pat rep : String) (s : String) : String :=
  String.mk (replaceSeqCore pat.data rep.data (s.data.length + 1) s.data)

/-- Core of the JS replace `\s+` → single space. -/
def collapseWsCore : Nat → List Char → List Char
  | 0, cs => cs
  | fuel + 1, cs =>
    match cs with
    | [] => []
    | c :: rest =>
      if isJsSpace c then ' ' :: collapseWsCore fuel (rest.dropWhile isJsSpace)
      else c :: collapseWsCore fuel rest

/-- JS `s.replace (\s+ global) " "`: collapse whitespace runs. -/
def collapseWs (s : String) : String :=
  String.mk (collapseWsCore (s.data.length + 1) s.data)

/-- Core of JS tag stripping `<[^>]+>` (when `requireOne` is true) or
`<[^>]*>` (when false): at a `<`, the match extends to the first `>`;
with no `>` ahead (or an immediate `>` when at least one inner
character is required) the `<` is kept and scanning advances one. -/
def stripTagsCore (requireOne : Bool) : Nat → List Char → List Char
  | 0, cs => cs
  | fuel + 1, cs =>
    match cs with
    | [] => []
    | c :: rest =>
      if c == '<' then
        match findCharIdx '>' rest with
        | some i =>
          if requireOne && i == 0 then c :: stripTagsCore requireOne fuel rest
          else stripTagsCore requireOne fuel (rest.drop (i + 1))
        | none => c :: stripTagsCore requireOne fuel rest
      else c :: stripTagsCore requireOne fuel rest

/-- JS replace of `<[^>]+>` by the empty string (global). -/
def stripTagsPlus (s : String) : String :=
  String.mk (stripTagsCore true (s.data.length + 1) s.data)

/-- JS replace of `<[^>]*>` by the empty string (global). -/
def stripTagsStar (s : String) : String :=
  String.mk (stripTagsCore false (s.data.length + 1) s.data)

/-- Core of the JS replaces `<script[^>]*>[\s\S]*?<\/script>` and
`<style[^>]*>[\s\S]*?<\/style>` (global, case-insensitive): at a
case-insensitive occurrence of `openWord` (such as `<script`), the
attribute part runs to the first `>`, the lazy body to the first
case-insensitive occurrence of `closeSeq`; if either is missing the
match fails and scanning advances one character. -/
def removeBlocksCore (openWord closeSeq : List Char) : Nat → List Char → List Char
  | 0, cs => cs
  | fuel + 1, cs =>
    match cs with
    | [] => []
    | c :: rest =>
      if ciIsPrefix openWord cs then
        let after := cs.drop openWord.length
        match findCharIdx '>' after with
        | some i =>
          let body := after.drop (i + 1)
          match findCISeqIdx closeSeq body with
          | some j => removeBlocksCore openWord closeSeq fuel (body.drop (j + closeSeq.length))
          | none => c :: removeBlocksCore openWord closeSeq fuel rest
        | none => c :: removeBlocksCore openWord closeSeq fuel rest
      else c :: removeBlocksCore openWord closeSeq fuel rest

/-- JS removal of `openWord[^>]*>` ... `closeSeq` blocks. -/
def removeBlocks (openWord closeSeq : String) (s : String) : String :=
  String.mk (removeBlocksCore openWord.data closeSeq.data (s.data.length + 1) s.data)

/-- JS replace of a character class by the empty string (global). -/
def removeChars (set : List Char) (s : String) : String :=
  String.mk (s.data.filter (fun c => !set.contains c))

/-- Core of the JS replace `\b\w` → uppercase: uppercase each word
character whose predecessor is absent or not a word character. -/
def titleCaseCore (boundary : Bool) : List Char → List Char
  | [] => []
  | c :: rest =>
    (if boundary && isWordChar c then c.toUpper else c) :: titleCaseCore (!isWordChar c) rest

/-- JS `s.replace (\b\w global) (l means l.toUpperCase())`. -/
def titleCase (s : String) : String := String.mk (titleCaseCore true s.data)

/-- Availability flags and behaviour oracles for the optional external
libraries.  The flags mirror the try/require probing done once at
process start; the oracle fields model what each library computes when
present (binary results are modelled as the base64 string the source
derives from them).  Extraction oracles may reject, matching the JS
promises. -/
structure Env where
  marked : Bool
  turndown : Bool
  puppeteer : Bool
  officegen : Bool
  mammoth : Bool
  pdfParse : Bool
  markedParse : String → String
  turndownConv : String → String
  renderPdfBase64 : String → String
  mammothExtract : String → Except String String
  pdfParseText : String → Except String String
  officegenGen : List (String × Bool) → Except String String

/-- Environment with no optional library installed (the oracles are
never consulted when the corresponding flag is false). -/
def noEnv : Env where
  marked := false
  turndown := false
  puppeteer := false
  officegen := false
  mammoth := false
  pdfParse := false
  markedParse := fun _ => ""
  turndownConv := fun _ => ""
  renderPdfBase64 := fun _ => ""
  mammothExtract := fun _ => Except.error "mammoth rejected"
  pdfParseText := fun _ => Except.error "pdf-parse rejected"
  officegenGen := fun _ => Except.error "officegen failed"

/-- The `SUPPORTED_FORMATS.input` list of the stdio server. -/
def SUPPORTED_FORMATS_input : List String := ["txt", "md", "html", "docx", "pdf", "rtf"]

/-- The `SUPPORTED_FORMATS.output` list of the stdio server. -/
def SUPPORTED_FORMATS_output : List String := ["txt", "md", "html", "docx", "pdf", "rtf"]

/-- One entry of the `files` argument of `convert-file-batch`
(interface `ConversionFile`); absent JSON fields are `none`. -/
structure ConversionFile where
  content : Option String := none
  input_format : Option String := none
  filename : Option String := none

namespace Stdio

/-- Function `convertTextToMarkdown` of the stdio server: per line,
blank stays blank, an all-uppercase line longer than 3 characters
becomes a title-cased level-1 heading, a line ending in a colon becomes
a level-2 heading without the colon, anything else passes through
trimmed. -/
def convertTextToMarkdown (text : String) : String :=
  let lines := jsSplit "\n" text
  let markdownLines := lines.map (fun line =>
    let trimmedLine := jsTrim line
    if trimmedLine = "" then ""
    else if trimmedLine = jsToUpper trimmedLine ∧ trimmedLine.length > 3 then
      "# " ++ titleCase (jsToLower trimmedLine)
    else if endsWithChar ':' trimmedLine then
      "## " ++ strDropLast trimmedLine
    else trimmedLine)
  String.intercalate "\n" markdownLines

/-- Function `convertMarkdownToHtml` of the stdio server: requires the
marked library and wraps its output in a fixed HTML template. -/
def convertMarkdownToHtml (env : Env) (mdText : String) : Except String String :=
  if env.marked = false then
    Except.error "Marked library not available. Install with: npm install marked"
  else
    Except.ok ("<!DOCTYPE html>\n<html>\n<head>\n    <meta charset=\"utf-8\">\n    <title>Converted Document</title>\n    <style>\n        body \x7b font-family: Arial, sans-serif; margin: 40px; line-height: 1.6; \x7d\n        code \x7b background-color: #f4f4f4; padding: 2px 4px; border-radius: 3px; \x7d\n        pre \x7b background-color: #f4f4f4; padding: 10px; border-radius: 5px; overflow-x: auto; \x7d\n        blockquote \x7b border-left: 4px solid #ddd; margin: 0; padding-left: 20px; color: #666; \x7d\n    </style>\n</head>\n<body>\n" ++ env.markedParse mdText ++ "\n</body>\n</html>")

/-- Function `convertHtmlToText` of the stdio server: remove script and
style blocks, strip remaining tags, decode the standard entities,
collapse whitespace, trim — in that order. -/
def convertHtmlToText (htmlContent : String) : String :=
  jsTrim (collapseWs (replaceSeq "&#39;" "\x27" (replaceSeq "&quot;" "\""
    (replaceSeq "&gt;" ">" (replaceSeq "&lt;" "<" (replaceSeq "&amp;" "&"
      (replaceSeq "&nbsp;" " " (stripTagsPlus
        (removeBlocks "<style" "</style>"
          (removeBlocks "<script" "</script>" htmlContent))))))))))

/-- Function `convertHtmlToMarkdown` of the stdio server: use turndown
when present, otherwise strip to text and re-run the text-to-markdown
heuristic. -/
def convertHtmlToMarkdown (env : Env) (htmlContent : String) : String :=
  if env.turndown = false then
    convertTextToMarkdown (convertHtmlToText htmlContent)
  else env.turndownConv htmlContent

/-- Text-to-HTML document construction shared by the stdio server's
pdf path and its html output path: escape, split on blank lines, wrap
each paragraph, wrap the whole in the fixed template. -/
def textParagraphsToHtmlDoc (content : String) : String :=
  let escapedContent := replaceSeq ">" "&gt;" (replaceSeq "<" "&lt;" (replaceSeq "&" "&amp;" content))
  let paragraphs := jsSplit "\n\n" escapedContent
  let htmlParagraphs := (paragraphs.filter (fun para => jsTrim para ≠ "")).map
    (fun para => "<p>" ++ replaceSeq "\n" "<br>" para ++ "</p>")
  "<!DOCTYPE html>\n<html>\n<head>\n    <meta charset=\"utf-8\">\n    <title>Converted Document</title>\n    <style>body \x7b font-family: Arial, sans-serif; margin: 40px; line-height: 1.6; \x7d</style>\n</head>\n<body>\n" ++ String.join htmlParagraphs ++ "\n</body>\n</html>"

/-- Function `convertToPdf` of the stdio server: requires puppeteer;
renders HTML obtained from the working representation (html passes
through, markdown goes through `convertMarkdownToHtml`, anything else
through the escaped-paragraph template). -/
def convertToPdf (env : Env) (content : String) (contentType : String) : Except String String :=
  if env.puppeteer = false then
    Except.error "Puppeteer library not available. Install with: npm install puppeteer"
  else
    match (if contentType = "html" then Except.ok content
           else if contentType = "markdown" then convertMarkdownToHtml env content
           else Except.ok (textParagraphsToHtmlDoc content)) with
    | Except.error e => Except.error e
    | Except.ok htmlContent => Except.ok (env.renderPdfBase64 htmlContent)

/-- The JS replace of `^#+\s*` by the empty string (non-global,
anchored): drop a leading run of hashes and the whitespace after it. -/
def stripHashMarks (s : String) : String :=
  match s.data with
  | '#' :: _ => String.mk ((s.data.dropWhile (· == '#')).dropWhile isJsSpace)
  | _ => s

/-- Function `convertToDocx` of the stdio server: requires officegen;
reduces the working representation to paragraphs, emitting short
all-uppercase or hash-marked paragraphs as bold runs. -/
def convertToDocx (env : Env) (content : String) (contentType : String) : Except String String :=
  if env.officegen = false then
    Except.error "Officegen library not available. Install with: npm install officegen"
  else
    let textContent :=
      if contentType = "html" then convertHtmlToText content
      else if contentType = "markdown" then removeChars ['#', '*', '_', Char.ofNat 96] content
      else content
    let paragraphs := jsSplit "\n\n" textContent
    let runs := paragraphs.filterMap (fun para =>
      if jsTrim para ≠ "" then
        if para.length < 50 ∧ (para = jsToUpper para ∨ para.startsWith "#") then
          some (jsTrim (stripHashMarks para), true)
        else some (jsTrim para, false)
      else none)
    env.officegenGen runs

/-- Normalization step of `convertDocument` in the stdio server: map a
validated input format to the working representation (content, type). -/
def normalizeInput (env : Env) (content input : String) : Except String (String × String) :=
  if input = "txt" then Except.ok (content, "text")
  else if input = "md" then Except.ok (content, "markdown")
  else if input = "html" then Except.ok (content, "html")
  else if input = "docx" then
    if env.mammoth = false then
      Except.error "Mammoth library not available for DOCX processing. Install with: npm install mammoth"
    else
      match env.mammothExtract content with
      | Except.ok v => Except.ok (v, "text")
      | Except.error e => Except.error e
  else if input = "pdf" then
    if env.pdfParse = false then
      Except.error "pdf-parse library not available for PDF processing. Install with: npm install pdf-parse"
    else
      match env.pdfParseText content with
      | Except.ok v => Except.ok (v, "text")
      | Except.error e => Except.error e
  else Except.ok (content, "text")

/-- Output-dispatch step of `convertDocument` in the stdio server: map
the working representation to the validated output format. -/
def dispatchOutput (env : Env) (workingContent workingType output : String) : Except String String :=
  if output = "txt" then
    if workingType = "html" then Except.ok (convertHtmlToText workingContent)
    else if workingType = "markdown" then
      Except.ok (removeChars ['#', '*', '_', Char.ofNat 96] workingContent)
    else Except.ok workingContent
  else if output = "md" then
    if workingType = "text" then Except.ok (convertTextToMarkdown workingContent)
    else if workingType = "html" then Except.ok (convertHtmlToMarkdown env workingContent)
    else Except.ok workingContent
  else if output = "html" then
    if workingType = "markdown" then convertMarkdownToHtml env workingContent
    else if workingType = "text" then Except.ok (textParagraphsToHtmlDoc workingContent)
    else Except.ok workingContent
  else if output = "pdf" then convertToPdf env workingContent workingType
  else if output = "docx" then convertToDocx env workingContent workingType
  else Except.error ("Output format \x27" ++ output ++ "\x27 conversion not implemented")

/-- Method `convertDocument` of `DocumentConverterStdioServer`:
lowercase and trim both format identifiers, validate them against
`SUPPORTED_FORMATS` (these two failures escape unwrapped), then
normalize and dispatch inside a try/catch whose catch rewraps the
message with the prefix `Conversion failed: `. -/
def convertDocument (env : Env) (content inputFormat outputFormat : String)
    (_filename : Option String := none) : Except String String :=
  let input := jsTrim (jsToLower inputFormat)
  let output := jsTrim (jsToLower outputFormat)
  if input ∉ SUPPORTED_FORMATS_input then
    Except.error ("Unsupported input format \x27" ++ input ++ "\x27. Supported: " ++
      String.intercalate ", " SUPPORTED_FORMATS_input)
  else if output ∉ SUPPORTED_FORMATS_output then
    Except.error ("Unsupported output format \x27" ++ output ++ "\x27. Supported: " ++
      String.intercalate ", " SUPPORTED_FORMATS_output)
  else
    match (match normalizeInput env content input with
           | Except.ok wr => dispatchOutput env wr.1 wr.2 output
           | Except.error e => Except.error e) with
    | Except.ok r => Except.ok r
    | Except.error e => Except.error ("Conversion failed: " ++ e)

/-- Loop body of `convertFileBatch` in the stdio server, for the file
at 0-based index `i`: default the content, the input format (to `txt`)
and the filename (to `file_<i+1>`), then convert, capturing success or
the failure message. -/
def processOne (env : Env) (outputFormat : String) (i : Nat) (fileInfo : ConversionFile) :
    String × Except String String :=
  let filename := jsOr fileInfo.filename ("file_" ++ toString (i + 1))
  (filename,
   convertDocument env (jsOr fileInfo.content "") (jsOr fileInfo.input_format "txt")
     outputFormat (some filename))

/-- The results array built by the `convertFileBatch` loop, starting at
index `start`. -/
def batchResultsFrom (env : Env) (outputFormat : String) : Nat → List ConversionFile →
    List (String × Except String String)
  | _, [] => []
  | i, f :: rest => processOne env outputFormat i f :: batchResultsFrom env outputFormat (i + 1) rest

/-- The results array built by the `convertFileBatch` loop. -/
def batchResults (env : Env) (files : List ConversionFile) (outputFormat : String) :
    List (String × Except String String) :=
  batchResultsFrom env outputFormat 0 files

/-- Header of the stdio batch report. -/
def batchHeader (count : Nat) (outputFormat : String) : String :=
  "Batch Conversion Results (" ++ toString count ++ " files to " ++ outputFormat ++ ")\n" ++
  repeatChar '=' 50 ++ "\n\n"

/-- One block of the stdio batch report: filename, status, and either
the error message or a preview of the first 100 characters of the
converted content with a `...` marker exactly when it is longer. -/
def renderBlock : String × Except String String → String
  | (filename, res) =>
    "File: " ++ filename ++ "\n" ++
    "Status: " ++ (match res with | Except.ok _ => "success" | Except.error _ => "error") ++ "\n" ++
    (match res with
     | Except.error e => "Error: " ++ e ++ "\n"
     | Except.ok c =>
       "Content Preview: " ++ (if c.length > 100 then strTake 100 c ++ "..." else c) ++ "\n") ++
    repeatChar '-' 30 ++ "\n"

/-- Method `convertFileBatch` of `DocumentConverterStdioServer`. -/
def convertFileBatch (env : Env) (files : List ConversionFile) (outputFormat : String) : String :=
  batchHeader files.length outputFormat ++
  String.join ((batchResults env files outputFormat).map renderBlock)

end Stdio

namespace DCS

/-- Method `convertToText` of `DocumentConverterServer`: strip tags for
html input, strip markdown punctuation for md input — both followed by
whitespace collapsing and trimming — and pass anything else through. -/
def convertToText (content : String) (inputType : String) : String :=
  if inputType = "html" then jsTrim (collapseWs (stripTagsStar content))
  else if inputType = "md" then
    jsTrim (collapseWs (removeChars ['#', '*', Char.ofNat 96, '_', '[', ']', '(', ')'] content))
  else content

/-- Method `convertToMarkdown` of `DocumentConverterServer`: turndown
for html input when available, the heading heuristic (on untrimmed
lines) for txt input, pass-through otherwise. -/
def convertToMarkdown (env : Env) (content : String) (inputType : String) : String :=
  if inputType = "html" ∧ env.turndown = true then env.turndownConv content
  else if inputType = "txt" then
    String.intercalate "\n" ((jsSplit "\n" content).map (fun line =>
      if jsTrim line = "" then ""
      else if jsToUpper line = line ∧ line.length > 3 then
        "# " ++ titleCase (jsToLower line)
      else if endsWithChar ':' line then "## " ++ strDropLast line
      else line))
  else content

/-- Lazy search for a closing delimiter, as in the JS regexes
`(.*?)close`: the shortest segment (newline-free unless `allowNl`)
followed by `close`; returns the segment and the remainder after the
delimiter. -/
def lazyCloseSearch (closePat : List Char) (allowNl : Bool) : List Char → Option (List Char × List Char)
  | [] => if closePat.isPrefixOf ([] : List Char) then some ([], []) else none
  | c :: rest =>
    if closePat.isPrefixOf (c :: rest) then some ([], (c :: rest).drop closePat.length)
    else if !allowNl && (c == '\n' || c == '\r') then none
    else (lazyCloseSearch closePat allowNl rest).map (fun p => (c :: p.1, p.2))

/-- Core of the JS replaces `open(.*?)close` → `pre$1post` (global,
lazy): at each occurrence of `openPat`, the shortest following segment
closed by `closePat` is rewrapped; with no closing delimiter the
opening character is kept and scanning advances one. -/
def lazyWrapCore (openPat closePat preL postL : List Char) (allowNl : Bool) :
    Nat → List Char → List Char
  | 0, cs => cs
  | fuel + 1, cs =>
    match cs with
    | [] => []
    | c :: rest =>
      if openPat.isPrefixOf cs then
        match lazyCloseSearch closePat allowNl (cs.drop openPat.length) with
        | some (seg, rem) =>
          preL ++ seg ++ postL ++ lazyWrapCore openPat closePat preL postL allowNl fuel rem
        | none => c :: lazyWrapCore openPat closePat preL postL allowNl fuel rest
      else c :: lazyWrapCore openPat closePat preL postL allowNl fuel rest

/-- String-level wrapper of `lazyWrapCore`. -/
def lazyWrapStr (openD closeD pre post : String) (allowNl : Bool) (s : String) : String :=
  String.mk (lazyWrapCore openD.data closeD.data pre.data post.data allowNl (s.data.length + 1) s.data)

/-- Apply a transformation to every line (the JS multiline-anchored
header regexes act per line). -/
def mapLines (f : String → String) (s : String) : String :=
  String.intercalate "\n" ((jsSplit "\n" s).map f)

/-- HTML heading digit class `[1-6]`. -/
def hDigit (c : Char) : Bool := '1' ≤ c && c ≤ '6'

/-- Recognize `</h[1-6]></p>` at the head of the list, returning the
digit and the remainder. -/
def isHClose : List Char → Option (Char × List Char)
  | '<' :: '/' :: 'h' :: d :: '>' :: '<' :: '/' :: 'p' :: '>' :: rem =>
    if hDigit d then some (d, rem) else none
  | _ => none

/-- Recognize `<p><h[1-6]>` at the head of the list, returning the
digit and the remainder. -/
def isHOpen : List Char → Option (Char × List Char)
  | '<' :: 'p' :: '>' :: '<' :: 'h' :: d :: '>' :: rem =>
    if hDigit d then some (d, rem) else none
  | _ => none

/-- Lazy search for the `</h[1-6]></p>` closer of the header-unwrap
regex. -/
def hCloseSplit : List Char → Option (List Char × Char × List Char)
  | [] => none
  | c :: rest =>
    match isHClose (c :: rest) with
    | some (d, rem) => some ([], d, rem)
    | none =>
      if c == '\n' || c == '\r' then none
      else (hCloseSplit rest).map (fun t => (c :: t.1, t.2.1, t.2.2))

/-- Core of the JS replace `<p>(<h[1-6]>.*?<\/h[1-6]>)<\/p>` → `$1`. -/
def unwrapHeadsCore : Nat → List Char → List Char
  | 0, cs => cs
  | fuel + 1, cs =>
    match cs with
    | [] => []
    | c :: rest =>
      match isHOpen cs with
      | some (d, rem) =>
        match hCloseSplit rem with
        | some (seg, d2, rem2) =>
          ['<', 'h', d, '>'] ++ seg ++ ['<', '/', 'h', d2, '>'] ++ unwrapHeadsCore fuel rem2
        | none => c :: unwrapHeadsCore fuel rest
      | none => c :: unwrapHeadsCore fuel rest

/-- String-level wrapper of `unwrapHeadsCore`. -/
def unwrapHeads (s : String) : String :=
  String.mk (unwrapHeadsCore (s.data.length + 1) s.data)

/-- Core of the JS replace `<p>(<pre>.*?<\/pre>)<\/p>` → `$1`. -/
def unwrapPresCore : Nat → List Char → List Char
  | 0, cs => cs
  | fuel + 1, cs =>
    match cs with
    | [] => []
    | c :: rest =>
      if ("<p><pre>".data).isPrefixOf cs then
        match lazyCloseSearch ("</pre></p>".data) false (cs.drop 8) with
        | some (seg, rem2) =>
          "<pre>".data ++ seg ++ "</pre>".data ++ unwrapPresCore fuel rem2
        | none => c :: unwrapPresCore fuel rest
      else c :: unwrapPresCore fuel rest

/-- String-level wrapper of `unwrapPresCore`. -/
def unwrapPres (s : String) : String :=
  String.mk (unwrapPresCore (s.data.length + 1) s.data)

/-- HTML escaping of `&`, `<`, `>` in that order. -/
def escapeHtml (s : String) : String :=
  replaceSeq ">" "&gt;" (replaceSeq "<" "&lt;" (replaceSeq "&" "&amp;" s))

/-- Method `simpleMarkdownToHtml` of `DocumentConverterServer`: the
hand-rolled markdown-to-HTML fallback (escape, headers, bold, italic,
code, paragraph folding, empty-paragraph and wrapper cleanup). -/
def simpleMarkdownToHtml (markdown : String) : String :=
  let h := escapeHtml markdown
  let h := mapLines (fun l => if l.data.take 4 = "### ".data then "<h3>" ++ strDrop 4 l ++ "</h3>" else l) h
  let h := mapLines (fun l => if l.data.take 3 = "## ".data then "<h2>" ++ strDrop 3 l ++ "</h2>" else l) h
  let h := mapLines (fun l => if l.data.take 2 = "# ".data then "<h1>" ++ strDrop 2 l ++ "</h1>" else l) h
  let h := lazyWrapStr "**" "**" "<strong>" "</strong>" false h
  let h := lazyWrapStr "*" "*" "<em>" "</em>" false h
  let h := lazyWrapStr "```" "```" "<pre><code>" "</code></pre>" true h
  let h := lazyWrapStr "`" "`" "<code>" "</code>" false h
  let h := replaceSeq "\n\n" "</p><p>" h
  let h := replaceSeq "\n" "<br>" h
  let h := "<p>" ++ h ++ "</p>"
  let h := replaceSeq "<p></p>" "" h
  let h := unwrapHeads h
  unwrapPres h

/-- Method `convertToHtml` of `DocumentConverterServer`: markdown input
is rendered by marked or by the fallback, each in its own template;
text input is escaped into a `pre` template; anything else passes
through. -/
def convertToHtml (env : Env) (content : String) (inputType : String) : String :=
  if inputType = "md" then
    if env.marked = true then
      "<!DOCTYPE html>\n<html>\n<head>\n    <meta charset=\"utf-8\">\n    <title>Converted Document</title>\n    <style>\n        body \x7b font-family: Arial, sans-serif; margin: 40px; line-height: 1.6; \x7d\n        code \x7b background-color: #f4f4f4; padding: 2px 4px; border-radius: 3px; \x7d\n        pre \x7b background-color: #f4f4f4; padding: 10px; border-radius: 5px; overflow-x: auto; \x7d\n    </style>\n</head>\n<body>\n" ++ env.markedParse content ++ "\n</body>\n</html>"
    else
      "<!DOCTYPE html>\n<html>\n<head>\n    <meta charset=\"utf-8\">\n    <title>Converted Document</title>\n    <style>\n        body \x7b font-family: Arial, sans-serif; margin: 40px; line-height: 1.6; \x7d\n        h1, h2, h3, h4, h5, h6 \x7b color: #333; \x7d\n        code \x7b background-color: #f4f4f4; padding: 2px 4px; border-radius: 3px; \x7d\n        pre \x7b background-color: #f4f4f4; padding: 10px; border-radius: 5px; overflow-x: auto; \x7d\n    </style>\n</head>\n<body>\n" ++ simpleMarkdownToHtml content ++ "\n</body>\n</html>"
  else if inputType = "txt" then
    "<!DOCTYPE html>\n<html>\n<head>\n    <meta charset=\"utf-8\">\n    <title>Text Document</title>\n</head>\n<body>\n<pre>" ++ escapeHtml content ++ "</pre>\n</body>\n</html>"
  else content

/-- Method `convertToPdf` of `DocumentConverterServer`: requires
puppeteer; non-html working content is first converted to HTML. -/
def convertToPdf (env : Env) (content : String) (inputType : String) : Except String String :=
  if env.puppeteer = false then Except.error "PDF conversion requires puppeteer"
  else
    Except.ok (env.renderPdfBase64
      (if inputType = "html" then content else convertToHtml env content inputType))

/-- Method `convertToDocx` of `DocumentConverterServer`: always throws. -/
def convertToDocx (_content : String) (_inputType : String) : Except String String :=
  Except.error "DOCX generation not implemented in this demo"

/-- Method `convertDocument` of `DocumentConverterServer`: an identity
request returns the content unchanged before anything else (no format
validation exists in this variant); otherwise docx/pdf inputs are
extracted when their backend is present, the output switch dispatches,
and the catch rewraps any failure as
`Conversion failed: Error: <message>` (JS string conversion of the
caught `Error`). -/
def convertDocument (env : Env) (content inputFormat outputFormat : String)
    (_filename : Option String := none) : Except String String :=
  let inner : Except String String :=
    if inputFormat = outputFormat then Except.ok content
    else
      match (if inputFormat = "docx" ∧ env.mammoth = true then
               match env.mammothExtract content with
               | Except.ok v => Except.ok (v, "txt")
               | Except.error e => Except.error e
             else if inputFormat = "pdf" ∧ env.pdfParse = true then
               match env.pdfParseText content with
               | Except.ok v => Except.ok (v, "txt")
               | Except.error e => Except.error e
             else Except.ok (content, inputFormat)) with
      | Except.error e => Except.error e
      | Except.ok (workingContent, workingType) =>
        if outputFormat = "txt" then Except.ok (convertToText workingContent workingType)
        else if outputFormat = "md" then Except.ok (convertToMarkdown env workingContent workingType)
        else if outputFormat = "html" then Except.ok (convertToHtml env workingContent workingType)
        else if outputFormat = "pdf" then convertToPdf env workingContent workingType
        else if outputFormat = "docx" then convertToDocx workingContent workingType
        else Except.error ("Unsupported output format: " ++ outputFormat)
  match inner with
  | Except.ok r => Except.ok r
  | Except.error e => Except.error ("Conversion failed: Error: " ++ e)

/-- Loop body of `convertFileBatch` in the HTTP server: no defaulting
of content or input format happens here (a missing field stays
undefined, modelled as the empty string, which differs from every
format identifier it is compared against); only the record's filename
falls back to `file_<i+1>`.  A success stores the preview directly; a
failure stores the JS string conversion `Error: <message>` of the
caught error. -/
def processOne (env : Env) (outputFormat : String) (i : Nat) (file : ConversionFile) :
    String × Except String String :=
  let name := jsOr file.filename ("file_" ++ toString (i + 1))
  match convertDocument env (file.content.getD "") (file.input_format.getD "") outputFormat
      file.filename with
  | Except.ok converted =>
    (name, Except.ok (strTake 100 converted ++ (if converted.length > 100 then "..." else "")))
  | Except.error e => (name, Except.error ("Error: " ++ e))

/-- The results array built by the HTTP `convertFileBatch` loop,
starting at index `start`. -/
def batchResultsFrom (env : Env) (outputFormat : String) : Nat → List ConversionFile →
    List (String × Except String String)
  | _, [] => []
  | i, f :: rest => processOne env outputFormat i f :: batchResultsFrom env outputFormat (i + 1) rest

/-- One block of the HTTP batch report. -/
def renderBlock : String × Except String String → String
  | (filename, res) =>
    "File: " ++ filename ++ "\n" ++
    "Status: " ++ (match res with | Except.ok _ => "success" | Except.error _ => "error") ++ "\n" ++
    (match res with
     | Except.error e => "Error: " ++ e ++ "\n"
     | Except.ok c => "Preview: " ++ c ++ "\n") ++
    repeatChar '-' 30 ++ "\n"

/-- Method `convertFileBatch` of `DocumentConverterServer`. -/
def convertFileBatch (env : Env) (files : List ConversionFile) (outputFormat : String) : String :=
  "Batch Conversion Results (" ++ toString files.length ++ " files to " ++ outputFormat ++ ")\n" ++
  repeatChar '=' 50 ++ "\n\n" ++
  String.join ((batchResultsFrom env outputFormat 0 files).map renderBlock)

end DCS

/-- Decidable equality of conversion outcomes. -/
instance : DecidableEq (Except String String) := fun a b =>
  match a, b with
  | Except.error x, Except.error y =>
    if h : x = y then isTrue (by rw [h])
    else isFalse (by intro hc; injection hc; contradiction)
  | Except.error _, Except.ok _ => isFalse (by intro hc; exact Except.noConfusion hc)
  | Except.ok _, Except.error _ => isFalse (by intro hc; exact Except.noConfusion hc)
  | Except.ok x, Except.ok y =>
    if h : x = y then isTrue (by rw [h])
    else isFalse (by intro hc; injection hc; contradiction)

/-- Concrete three-file batch used to witness the batch properties: a
plain text file, a file with an unsupported format, and a file with no
input format and no filename. -/
def demoFiles : List ConversionFile :=
  [{ content := some "hello world", input_format := some "txt", filename := some "a.txt" },
   { content := some "x", input_format := some "xyz", filename := none },
   { content := some "HELLO", input_format := none, filename := none }]

/-- String whose stdio-batch preview is truncated (120 characters). -/
def demoLong : String := String.mk (List.replicate 120 'a')

/-- Length of the stdio batch-results array equals the number of files
processed so far. -/
theorem stdio_batchResultsFrom_length (env : Env) (out : String) (files : List ConversionFile) :
    ∀ start : Nat, (Stdio.batchResultsFrom env out start files).length = files.length := by
  induction files with
  | nil => intro start; rfl
  | cons g rest ih => intro start; simp [Stdio.batchResultsFrom, ih]

/-- The entry at index `i` of the stdio batch-results array is the
processing of the file at index `i` alone (with the running index
offset by `start`). -/
theorem stdio_batchResultsFrom_get (env : Env) (out : String) (files : List ConversionFile) :
    ∀ (start i : Nat) (f : ConversionFile), files[i]? = some f →
      (Stdio.batchResultsFrom env out start files)[i]? =
        some (Stdio.processOne env out (start + i) f) := by
  induction files with
  | nil => intro start i f h; simp at h
  | cons g rest ih =>
    intro start i f h
    cases i with
    | zero =>
      simp only [List.getElem?_cons_zero, Option.some.injEq] at h
      subst h
      simp [Stdio.batchResultsFrom]
    | succ n =>
      simp only [List.getElem?_cons_succ] at h
      have := ih (start + 1) n f h
      simp only [Stdio.batchResultsFrom, List.getElem?_cons_succ]
      simpa [show start + 1 + n = start + (n + 1) from by omega] using this

/-- Claim C1, counterexample: in the stdio server an identity rtf-to-rtf
request with no backend installed does not return the content — it
fails with the wrapped NotImplemented error, so identity conversion is
not unconditionally byte-for-byte across both cited implementations. -/
theorem identity_rtf_stdio_fails :
    Stdio.convertDocument noEnv "hello" "rtf" "rtf" =
      Except.error "Conversion failed: Output format \x27rtf\x27 conversion not implemented" ∧
    Stdio.convertDocument noEnv "hello" "rtf" "rtf" ≠ Except.ok "hello" := by
  constructor
  · rfl
  · decide

/-- Claim C1, amended: the HTTP server's convertDocument returns the
content unchanged for every identity pair, including identifiers with
no backend; the stdio server's convertDocument does so only for the
three textual formats txt, md and html. -/
theorem identity_conversion_amended (env : Env) (content fmt : String) :
    DCS.convertDocument env content fmt fmt = Except.ok content ∧
    Stdio.convertDocument env content "txt" "txt" = Except.ok content ∧
    Stdio.convertDocument env content "md" "md" = Except.ok content ∧
    Stdio.convertDocument env content "html" "html" = Except.ok content := by
  refine ⟨?_, rfl, rfl, rfl⟩
  simp [DCS.convertDocument]

/-- Claim C2, counterexample: the HTTP server's convertDocument never
validates formats — a request with the unregistered input format `xyz`
and output `txt` succeeds, returning the content, instead of failing
with an UnsupportedFormat error. -/
theorem unsupported_format_http_succeeds :
    DCS.convertDocument noEnv "hi" "xyz" "txt" = Except.ok "hi" := rfl

/-- Claim C2, amended: in the stdio server any input format outside the
registry (after lowercasing and trimming) fails with a message naming
the invalid value and enumerating the valid set, and likewise for the
output format once the input format is valid; the HTTP server performs
no such validation. -/
theorem unsupported_format_stdio (env : Env) (c fIn fOut : String) :
    (jsTrim (jsToLower fIn) ∉ SUPPORTED_FORMATS_input →
      Stdio.convertDocument env c fIn fOut =
        Except.error ("Unsupported input format \x27" ++ jsTrim (jsToLower fIn) ++
          "\x27. Supported: " ++ String.intercalate ", " SUPPORTED_FORMATS_input)) ∧
    (jsTrim (jsToLower fIn) ∈ SUPPORTED_FORMATS_input →
      jsTrim (jsToLower fOut) ∉ SUPPORTED_FORMATS_output →
      Stdio.convertDocument env c fIn fOut =
        Except.error ("Unsupported output format \x27" ++ jsTrim (jsToLower fOut) ++
          "\x27. Supported: " ++ String.intercalate ", " SUPPORTED_FORMATS_output)) := by
  constructor
  · intro h
    simp only [Stdio.convertDocument]
    rw [if_pos h]
  · intro h1 h2
    simp only [Stdio.convertDocument]
    rw [if_neg (not_not_intro h1), if_pos h2]

/-- Claim C2, witness: the amended validation theorem applied to the
concrete invalid identifier `xyz` in each position. -/
theorem unsupported_format_stdio_witness :
    Stdio.convertDocument noEnv "hi" "xyz" "txt" =
      Except.error "Unsupported input format \x27xyz\x27. Supported: txt, md, html, docx, pdf, rtf" ∧
    Stdio.convertDocument noEnv "hi" "txt" "xyz" =
      Except.error "Unsupported output format \x27xyz\x27. Supported: txt, md, html, docx, pdf, rtf" :=
  ⟨(unsupported_format_stdio noEnv "hi" "xyz" "txt").1 (by decide),
   (unsupported_format_stdio noEnv "hi" "txt" "xyz").2 (by decide) (by decide)⟩

/-- Claim C4, counterexample: the HTTP server's html-to-txt path strips
tags and collapses whitespace but never decodes entities, so the cited
input does not produce `Hello & welcome` there. -/
theorem html_entities_http_not_decoded :
    DCS.convertDocument noEnv "<p>Hello &amp; welcome</p>" "html" "txt" ≠
      Except.ok "Hello & welcome" := by decide

/-- Claim C4, amended: converting `<p>Hello &amp; welcome</p>` from html
to txt with no backends yields `Hello & welcome` in the stdio server
(tags stripped, entities decoded, whitespace collapsed and trimmed, in
that order), but `Hello &amp; welcome` in the HTTP server, whose
convertToText performs no entity decoding. -/
theorem html_to_text_entities :
    Stdio.convertDocument noEnv "<p>Hello &amp; welcome</p>" "html" "txt" =
      Except.ok "Hello & welcome" ∧
    DCS.convertDocument noEnv "<p>Hello &amp; welcome</p>" "html" "txt" =
      Except.ok "Hello &amp; welcome" := ⟨rfl, rfl⟩

/-- Claim C6, counterexample: converting the markdown `## Summary` back
to txt in the stdio server only removes the punctuation characters and
neither collapses nor trims, yielding ` Summary` with a leading space
rather than `Summary`. -/
theorem roundtrip_stdio_leading_space :
    Stdio.convertDocument noEnv "Summary:" "txt" "md" = Except.ok "## Summary" ∧
    Stdio.convertDocument noEnv "## Summary" "md" "txt" = Except.ok " Summary" ∧
    Stdio.convertDocument noEnv "## Summary" "md" "txt" ≠ Except.ok "Summary" := by
  refine ⟨rfl, rfl, ?_⟩
  decide

/-- Claim C6, amended: `Summary:` converts to the level-2 heading
`## Summary` in both servers; converting that markdown back to txt
yields `Summary` in the HTTP server (which strips punctuation, then
collapses whitespace and trims) but ` Summary` with a leading space in
the stdio server (which only strips the punctuation characters). -/
theorem roundtrip_summary :
    Stdio.convertDocument noEnv "Summary:" "txt" "md" = Except.ok "## Summary" ∧
    DCS.convertDocument noEnv "Summary:" "txt" "md" = Except.ok "## Summary" ∧
    DCS.convertDocument noEnv "## Summary" "md" "txt" = Except.ok "Summary" ∧
    Stdio.convertDocument noEnv "## Summary" "md" "txt" = Except.ok " Summary" :=
  ⟨rfl, rfl, rfl, rfl⟩

/-- Claim C7: the all-uppercase heading promotion requires length
strictly greater than 3 — `ABC` passes through unchanged while `TEST`
becomes the title-cased level-1 heading `# Test`, in the heading
heuristics of both servers. -/
theorem heading_length_threshold :
    Stdio.convertTextToMarkdown "ABC" = "ABC" ∧
    Stdio.convertTextToMarkdown "TEST" = "# Test" ∧
    DCS.convertToMarkdown noEnv "ABC" "txt" = "ABC" ∧
    DCS.convertToMarkdown noEnv "TEST" "txt" = "# Test" := ⟨rfl, rfl, rfl, rfl⟩

/-- Claim C9: the HTTP server's convertToText is the identity on
text-kind input, hence idempotent on it. -/
theorem convertToText_idempotent (s : String) :
    DCS.convertToText s "txt" = s ∧
    DCS.convertToText (DCS.convertToText s "txt") "txt" = DCS.convertToText s "txt" := ⟨rfl, rfl⟩

/-- Claim C10: in the HTTP server the identity short-circuit precedes
any validation — every request with equal input and output format
identifiers, registered or not, returns the content unchanged. -/
theorem http_identity_before_validation (env : Env) (content fmt : String) :
    DCS.convertDocument env content fmt fmt = Except.ok content := by
  simp [DCS.convertDocument]

/-- Claim C3, counterexample: the HTTP server's convertFileBatch does
not default a missing `input_format` to `txt` — a file with no input
format produces a different report than the same file with `txt`,
because the undefined format is passed through the pipeline as an
unknown kind. -/
theorem batch_http_no_input_default :
    DCS.convertFileBatch noEnv
        [{ content := some "HELLO", input_format := none, filename := none }] "md" ≠
      DCS.convertFileBatch noEnv
        [{ content := some "HELLO", input_format := some "txt", filename := none }] "md" := by
  decide

/-- Claim C3, amended: the stdio server's convertFileBatch renders a
header plus one block per file in input order; the results array has
one entry per file, and its entry at index `i` is a function of the
file at index `i` alone (so one file's failure cannot affect another's
entry), with the stated filename and input-format defaults; a success
block carries a preview of the first 100 characters with a `...`
marker exactly when the output is longer, and an error block carries
the failure message.  (The HTTP variant lacks only the input-format
default.) -/
theorem batch_report_structure (env : Env) (files : List ConversionFile) (out : String) :
    Stdio.convertFileBatch env files out =
      Stdio.batchHeader files.length out ++
        String.join ((Stdio.batchResults env files out).map Stdio.renderBlock) ∧
    (Stdio.batchResults env files out).length = files.length ∧
    (∀ (i : Nat) (f : ConversionFile), files[i]? = some f →
      (Stdio.batchResults env files out)[i]? = some (Stdio.processOne env out i f)) ∧
    (∀ (i : Nat) (f : ConversionFile), files[i]? = some f → f.input_format = none →
      (Stdio.batchResults env files out)[i]? =
        some (jsOr f.filename ("file_" ++ toString (i + 1)),
          Stdio.convertDocument env (jsOr f.content "") "txt" out
            (some (jsOr f.filename ("file_" ++ toString (i + 1)))))) ∧
    (∀ name c : String, Stdio.renderBlock (name, Except.ok c) =
      "File: " ++ name ++ "\n" ++ "Status: " ++ "success" ++ "\n" ++
        ("Content Preview: " ++ (if c.length > 100 then strTake 100 c ++ "..." else c) ++ "\n") ++
        repeatChar '-' 30 ++ "\n") ∧
    (∀ name e : String, Stdio.renderBlock (name, Except.error e) =
      "File: " ++ name ++ "\n" ++ "Status: " ++ "error" ++ "\n" ++
        ("Error: " ++ e ++ "\n") ++ repeatChar '-' 30 ++ "\n") := by
  refine ⟨rfl, stdio_batchResultsFrom_length env out files 0, ?_, ?_,
    fun name c => rfl, fun name e => rfl⟩
  · intro i f h
    simpa using stdio_batchResultsFrom_get env out files 0 i f h
  · intro i f h hIn
    have hg := stdio_batchResultsFrom_get env out files 0 i f h
    simp only [Nat.zero_add] at hg
    show (Stdio.batchResultsFrom env out 0 files)[i]? = _
    rw [hg]
    simp [Stdio.processOne, hIn, jsOr]

/-- Claim C3, witness: the structure theorem applied to a concrete
three-file batch — the second file (unsupported format) yields exactly
its own processing record, and the third file (missing input format
and filename) is processed with format `txt` and filename `file_3`. -/
theorem batch_report_structure_witness :
    (Stdio.batchResults noEnv demoFiles "md")[1]? =
      some (Stdio.processOne noEnv "md" 1
        { content := some "x", input_format := some "xyz", filename := none }) ∧
    (Stdio.batchResults noEnv demoFiles "md")[2]? =
      some ("file_3", Stdio.convertDocument noEnv "HELLO" "txt" "md" (some "file_3")) :=
  ⟨(batch_report_structure noEnv demoFiles "md").2.2.1 1 _ rfl,
   (batch_report_structure noEnv demoFiles "md").2.2.2.1 2 _ rfl rfl⟩

/-- Claim C5, counterexample: an identity pdf-to-pdf request on the
HTTP server with puppeteer absent does not fail at all — it returns
the content — so not every pdf-output request without the rendering
backend fails with a BackendUnavailable error. -/
theorem pdf_identity_http_succeeds :
    DCS.convertDocument noEnv "x" "pdf" "pdf" = Except.ok "x" := rfl

/-- Claim C5, amended: for every request with a textual input format
(txt, md, html, or rtf) and output format pdf, when puppeteer is
absent both servers fail with the wrapped error naming the missing
puppeteer backend. -/
theorem pdf_backend_unavailable (env : Env) (c fIn : String) (hp : env.puppeteer = false)
    (h : fIn ∈ (["txt", "md", "html", "rtf"] : List String)) :
    Stdio.convertDocument env c fIn "pdf" =
      Except.error "Conversion failed: Puppeteer library not available. Install with: npm install puppeteer" ∧
    DCS.convertDocument env c fIn "pdf" =
      Except.error "Conversion failed: Error: PDF conversion requires puppeteer" := by
  obtain ⟨m, t, p, o, mm, pp, g1, g2, g3, g4, g5, g6⟩ := env
  change p = false at hp
  subst hp
  simp only [List.mem_cons, List.not_mem_nil, or_false] at h
  rcases h with rfl | rfl | rfl | rfl <;> exact ⟨rfl, rfl⟩

/-- Claim C5, witness: the backend-unavailable theorem applied to a
concrete txt-to-pdf request with no libraries installed. -/
theorem pdf_backend_unavailable_witness :
    Stdio.convertDocument noEnv "hi" "txt" "pdf" =
      Except.error "Conversion failed: Puppeteer library not available. Install with: npm install puppeteer" ∧
    DCS.convertDocument noEnv "hi" "txt" "pdf" =
      Except.error "Conversion failed: Error: PDF conversion requires puppeteer" :=
  pdf_backend_unavailable noEnv "hi" "txt" rfl (by decide)

/-- Claim C8, counterexample: with turndown absent the HTTP server's
html-to-md conversion returns the HTML unchanged instead of falling
back to stripping it to text and re-running the heading heuristic
(which would give `Hi` here). -/
theorem html_to_md_http_unchanged :
    DCS.convertDocument noEnv "<p>Hi</p>" "html" "md" = Except.ok "<p>Hi</p>" ∧
    Stdio.convertTextToMarkdown (Stdio.convertHtmlToText "<p>Hi</p>") = "Hi" ∧
    ("<p>Hi</p>" : String) ≠ "Hi" := by
  refine ⟨rfl, rfl, ?_⟩
  decide

/-- Claim C8, amended: with turndown absent, the stdio server's
html-to-md conversion is exactly the composition of its html-to-text
stripping with the text-to-markdown heuristic; the HTTP server instead
returns html-kind content unchanged. -/
theorem html_to_md_fallback (env : Env) (html c : String) (h : env.turndown = false) :
    Stdio.convertHtmlToMarkdown env html =
      Stdio.convertTextToMarkdown (Stdio.convertHtmlToText html) ∧
    DCS.convertToMarkdown env c "html" = c := by
  constructor
  · unfold Stdio.convertHtmlToMarkdown
    rw [if_pos h]
  · unfold DCS.convertToMarkdown
    rw [if_neg (by simp [h]), if_neg (by decide)]

/-- Claim C8, witness: the fallback theorem applied to a concrete
snippet with no libraries installed. -/
theorem html_to_md_fallback_witness :
    Stdio.convertHtmlToMarkdown noEnv "<p>Hi</p>" =
      Stdio.convertTextToMarkdown (Stdio.convertHtmlToText "<p>Hi</p>") ∧
    DCS.convertToMarkdown noEnv "<p>Hi</p>" "html" = "<p>Hi</p>" :=
  html_to_md_fallback noEnv "<p>Hi</p>" "<p>Hi</p>" rfl
